import Mathlib

/-!
Verification of the two native key accessors of this repository.

The Android side (android/app/src/main/cpp/native-lib.cpp) exports a JNI
function that builds a local std string from a literal and marshals it to
the JVM with NewStringUTF.  The marshalling step allocates on the managed
heap and can fail only on memory exhaustion; we model the JNI environment
by a flag saying whether that allocation succeeds.

The plain native side (ios/Runner/SecurityUtils.cpp) returns the c_str
pointer of a function-local static std string.  C++ semantics construct
such a static on the first call (at most once, guarded) and never destroy
it for the remainder of the process.  We model process memory for statics
explicitly: an address map, a guard cell recording the address of the
static once constructed, and a fresh-address counter.  The accessor
returns an address; callers read the string through the address map.
-/

/-- The string literal of the Android accessor (native-lib.cpp line 7). -/
def androidKeyLiteral : String := "abcdefhijklmnopqrstuvwxyzabcdefghijklmnop"

/-- The string literal of the plain native accessor (SecurityUtils.cpp line 7). -/
def iosKeyLiteral : String := "my32lengthsupersecretnooneknows!!"

/-- A JNI environment, abstracted to the only thing the accessor depends on:
whether allocation of the managed string succeeds. -/
structure JNIEnv where
  allocOK : Bool

/-- JNI NewStringUTF: marshals a native string into a managed string.
Fails (returns none) exactly when the managed-heap allocation fails. -/
def NewStringUTF (env : JNIEnv) (s : String) : Option String :=
  if env.allocOK then some s else none

/-- The JNI export of native-lib.cpp: builds the local `key` string from the
literal and returns its marshalled managed copy. -/
def Java_com_example_fluttersampleachitecture_NativeKeyProvider_getSecretKey
    (env : JNIEnv) : Option String :=
  let key := androidKeyLiteral
  NewStringUTF env key

/-- An address in process memory. -/
abbrev Addr := Nat

/-- Process-wide state relevant to the plain native accessor: the contents of
constructed static objects, the guard cell of the function-local static
`key` (holding its address once constructed), and a fresh-address source. -/
structure ProcState where
  mem : Addr → Option String
  keyGuard : Option Addr
  nextAddr : Addr

/-- The process state at load time: no static constructed yet. -/
def procInit : ProcState :=
  { mem := fun _ => none, keyGuard := none, nextAddr := 0 }

/-- The plain native accessor of SecurityUtils.cpp.  On the first call the
function-local static `key` is constructed from the literal at a fresh
address and the guard is set; afterwards the already-constructed object is
returned unchanged.  The function returns the address of the static's
character data (its c_str). -/
def getSecretKey (st : ProcState) : Addr × ProcState :=
  match st.keyGuard with
  | some a => (a, st)
  | none =>
      let a := st.nextAddr
      (a, { mem := fun x => if x = a then some iosKeyLiteral else st.mem x,
            keyGuard := some a,
            nextAddr := st.nextAddr + 1 })

/-- The address the static `key` lives at (or will live at, if not yet
constructed) in a given process state. -/
def staticAddr (st : ProcState) : Addr :=
  st.keyGuard.getD st.nextAddr

/-- Invariant of the process state: whenever the static `key` has been
constructed, the object at its address holds the literal.  It holds at load
time and is preserved by the accessor. -/
def KeyInv (st : ProcState) : Prop :=
  ∀ a, st.keyGuard = some a → st.mem a = some iosKeyLiteral

/-- A trace of n successive calls to the plain native accessor: the list of
(returned address, string read through that address) observations together
with the final process state. -/
def runCalls : Nat → ProcState → List (Addr × Option String) × ProcState
  | 0, st => ([], st)
  | n + 1, st =>
      let r := getSecretKey st
      let rest := runCalls n r.2
      ((r.1, r.2.mem r.1) :: rest.1, rest.2)

/-- A trace of calls by an arbitrary interleaving of callers (one list entry
per call, tagged with the caller's id): each caller invokes the plain native
accessor on the shared process state and reads the string back. -/
def runConcCalls : List Nat → ProcState → List (Nat × Option String) × ProcState
  | [], st => ([], st)
  | c :: cs, st =>
      let r := getSecretKey st
      let rest := runConcCalls cs r.2
      ((c, r.2.mem r.1) :: rest.1, rest.2)

/-- The JNI export with the shared process state threaded through.  The body
of the function touches no process-wide static: it builds a local string and
marshals it, so the state passes through untouched (mirroring that the
source body reads and writes no global). -/
def getSecretKeyThreaded (env : JNIEnv) (st : ProcState) :
    Option String × ProcState :=
  (Java_com_example_fluttersampleachitecture_NativeKeyProvider_getSecretKey env, st)

-- Basic lemmas about the accessor.

theorem KeyInv_procInit : KeyInv procInit := by
  intro a h
  simp [procInit] at h

theorem getSecretKey_fst (st : ProcState) :
    (getSecretKey st).1 = staticAddr st := by
  unfold getSecretKey staticAddr
  cases h : st.keyGuard <;> simp [h]

theorem getSecretKey_of_guard (st : ProcState) (a : Addr)
    (h : st.keyGuard = some a) : getSecretKey st = (a, st) := by
  unfold getSecretKey
  rw [h]

theorem getSecretKey_guard (st : ProcState) :
    (getSecretKey st).2.keyGuard = some (staticAddr st) := by
  unfold getSecretKey staticAddr
  cases h : st.keyGuard <;> simp [h]

theorem getSecretKey_mem (st : ProcState) (h : KeyInv st) :
    (getSecretKey st).2.mem (getSecretKey st).1 = some iosKeyLiteral := by
  unfold getSecretKey
  cases hg : st.keyGuard with
  | some a => exact h a hg
  | none => simp

theorem getSecretKey_inv (st : ProcState) (h : KeyInv st) :
    KeyInv (getSecretKey st).2 := by
  unfold getSecretKey
  cases hg : st.keyGuard with
  | some a =>
      intro b hb
      exact h b hb
  | none =>
      intro b hb
      simp at hb
      subst hb
      simp

theorem getSecretKey_state_fixed (st : ProcState) :
    getSecretKey (getSecretKey st).2 = ((getSecretKey st).1, (getSecretKey st).2) := by
  have hg := getSecretKey_guard st
  have hf := getSecretKey_fst st
  rw [getSecretKey_of_guard _ _ hg, hf]

theorem runCalls_obs (n : Nat) (st : ProcState) (h : KeyInv st) :
    ((runCalls n st).1.map Prod.snd = List.replicate n (some iosKeyLiteral)) ∧
      KeyInv (runCalls n st).2 := by
  induction n generalizing st with
  | zero => exact ⟨rfl, h⟩
  | succ n ih =>
      have h2 := getSecretKey_inv st h
      have hmem := getSecretKey_mem st h
      have hrest := ih (getSecretKey st).2 h2
      constructor
      · show ((getSecretKey st).2.mem (getSecretKey st).1) ::
            (runCalls n (getSecretKey st).2).1.map Prod.snd =
            some iosKeyLiteral :: List.replicate n (some iosKeyLiteral)
        rw [hmem, hrest.1]
      · exact hrest.2

theorem runCalls_addrs (n : Nat) (st : ProcState) :
    (runCalls (n + 1) st).1.map Prod.fst =
      List.replicate (n + 1) (staticAddr st) ∧
      (runCalls (n + 1) st).2 = (getSecretKey st).2 := by
  induction n generalizing st with
  | zero =>
      refine ⟨?_, rfl⟩
      show [(getSecretKey st).1] = [staticAddr st]
      rw [getSecretKey_fst]
  | succ n ih =>
      have hfix := getSecretKey_state_fixed st
      have hrest := ih (getSecretKey st).2
      have haddr : staticAddr (getSecretKey st).2 = staticAddr st := by
        unfold staticAddr
        rw [getSecretKey_guard st]
        rfl
      constructor
      · show (getSecretKey st).1 ::
            (runCalls (n + 1) (getSecretKey st).2).1.map Prod.fst =
            staticAddr st :: List.replicate (n + 1) (staticAddr st)
        rw [getSecretKey_fst, hrest.1, haddr]
      · show (runCalls (n + 1) (getSecretKey st).2).2 = (getSecretKey st).2
        rw [hrest.2, hfix]

theorem runConcCalls_obs (cs : List Nat) (st : ProcState) (h : KeyInv st) :
    (runConcCalls cs st).1 = cs.map (fun c => (c, some iosKeyLiteral)) ∧
      KeyInv (runConcCalls cs st).2 := by
  induction cs generalizing st with
  | nil => exact ⟨rfl, h⟩
  | cons c cs ih =>
      have h2 := getSecretKey_inv st h
      have hmem := getSecretKey_mem st h
      have hrest := ih (getSecretKey st).2 h2
      constructor
      · show (c, (getSecretKey st).2.mem (getSecretKey st).1) ::
            (runConcCalls cs (getSecretKey st).2).1 =
            (c, some iosKeyLiteral) :: cs.map (fun x => (x, some iosKeyLiteral))
        rw [hmem, hrest.1]
      · exact hrest.2

-- Claim theorems.

/-- C1: every invocation of the managed-bridge accessor (the JNI export)
with no arguments, in an environment where managed-string allocation
succeeds, returns exactly the literal string
"abcdefhijklmnopqrstuvwxyzabcdefghijklmnop". -/
theorem android_getSecretKey_returns_literal (env : JNIEnv)
    (h : env.allocOK = true) :
    Java_com_example_fluttersampleachitecture_NativeKeyProvider_getSecretKey env =
      some "abcdefhijklmnopqrstuvwxyzabcdefghijklmnop" := by
  simp [Java_com_example_fluttersampleachitecture_NativeKeyProvider_getSecretKey,
    NewStringUTF, androidKeyLiteral, h]

/-- Witness for C1 at the concrete environment with successful allocation. -/
theorem android_getSecretKey_returns_literal_witness :
    Java_com_example_fluttersampleachitecture_NativeKeyProvider_getSecretKey ⟨true⟩ =
      some "abcdefhijklmnopqrstuvwxyzabcdefghijklmnop" :=
  android_getSecretKey_returns_literal ⟨true⟩ rfl

/-- C2: every invocation of the plain native accessor getSecretKey, from any
process state satisfying the static-key invariant, yields a reference whose
contents are exactly the literal string "my32lengthsupersecretnooneknows!!". -/
theorem ios_getSecretKey_returns_literal (st : ProcState) (h : KeyInv st) :
    (getSecretKey st).2.mem (getSecretKey st).1 =
      some "my32lengthsupersecretnooneknows!!" :=
  getSecretKey_mem st h

/-- Witness for C2 at the load-time process state. -/
theorem ios_getSecretKey_returns_literal_witness :
    (getSecretKey procInit).2.mem (getSecretKey procInit).1 =
      some "my32lengthsupersecretnooneknows!!" :=
  ios_getSecretKey_returns_literal procInit KeyInv_procInit

/-- C3 counterexample: the string returned by the managed-bridge accessor
does not have length 42 (its length is 41). -/
theorem android_getSecretKey_length_not_42 :
    (Java_com_example_fluttersampleachitecture_NativeKeyProvider_getSecretKey
      ⟨true⟩).map String.length ≠ some 42 := by
  decide

/-- C3 amended: for every invocation of the managed-bridge accessor in an
environment where managed-string allocation succeeds, the length of the
returned string equals 41 characters. -/
theorem android_getSecretKey_length (env : JNIEnv) (h : env.allocOK = true) :
    (Java_com_example_fluttersampleachitecture_NativeKeyProvider_getSecretKey
      env).map String.length = some 41 := by
  simp [Java_com_example_fluttersampleachitecture_NativeKeyProvider_getSecretKey,
    NewStringUTF, androidKeyLiteral, h]
  decide

/-- Witness for amended C3 at the concrete environment. -/
theorem android_getSecretKey_length_witness :
    (Java_com_example_fluttersampleachitecture_NativeKeyProvider_getSecretKey
      ⟨true⟩).map String.length = some 41 :=
  android_getSecretKey_length ⟨true⟩ rfl

/-- C4 counterexample: the string referenced by the value the plain native
accessor returns on its first call does not have length 34 (its length
is 33). -/
theorem ios_getSecretKey_length_not_34 :
    ((getSecretKey procInit).2.mem (getSecretKey procInit).1).map String.length ≠
      some 34 := by
  decide

/-- C4 amended: for every invocation of the plain native accessor
getSecretKey, from any process state satisfying the static-key invariant,
the length of the referenced string equals 33 characters. -/
theorem ios_getSecretKey_length (st : ProcState) (h : KeyInv st) :
    ((getSecretKey st).2.mem (getSecretKey st).1).map String.length = some 33 := by
  rw [getSecretKey_mem st h]
  decide

/-- Witness for amended C4 at the load-time process state. -/
theorem ios_getSecretKey_length_witness :
    ((getSecretKey procInit).2.mem (getSecretKey procInit).1).map String.length =
      some 33 :=
  ios_getSecretKey_length procInit KeyInv_procInit

/-- C5: each accessor is a constant, deterministic function within a process
lifetime: any two successful invocations of the managed-bridge accessor
return the same value, and every call in any trace of invocations of the
plain native accessor observes the same literal. -/
theorem accessors_constant (e1 e2 : JNIEnv) (st : ProcState) (n : Nat)
    (h1 : e1.allocOK = true) (h2 : e2.allocOK = true) (h : KeyInv st) :
    Java_com_example_fluttersampleachitecture_NativeKeyProvider_getSecretKey e1 =
      Java_com_example_fluttersampleachitecture_NativeKeyProvider_getSecretKey e2 ∧
      (runCalls n st).1.map Prod.snd = List.replicate n (some iosKeyLiteral) := by
  constructor
  · simp [Java_com_example_fluttersampleachitecture_NativeKeyProvider_getSecretKey,
      NewStringUTF, h1, h2]
  · exact (runCalls_obs n st h).1

/-- Witness for C5: two concrete environments and a concrete three-call
trace from the load-time state. -/
theorem accessors_constant_witness :
    Java_com_example_fluttersampleachitecture_NativeKeyProvider_getSecretKey ⟨true⟩ =
      Java_com_example_fluttersampleachitecture_NativeKeyProvider_getSecretKey ⟨true⟩ ∧
      (runCalls 3 procInit).1.map Prod.snd = List.replicate 3 (some iosKeyLiteral) :=
  accessors_constant ⟨true⟩ ⟨true⟩ procInit 3 rfl rfl KeyInv_procInit

/-- C6 counterexample: the first invocation of the plain native accessor
does change process-wide state: it flips the static's guard cell from
unconstructed to constructed. -/
theorem ios_first_call_changes_state :
    (getSecretKey procInit).2.keyGuard ≠ procInit.keyGuard := by
  decide

/-- C6 amended: the managed-bridge accessor changes no process-wide state,
and the plain native accessor's only side effect is the one-time
construction of its static: any call made after the static is constructed
leaves all process-wide state unchanged. -/
theorem accessors_frame (env : JNIEnv) (st st2 : ProcState) (a : Addr)
    (hg : st2.keyGuard = some a) :
    (getSecretKeyThreaded env st).2 = st ∧ (getSecretKey st2).2 = st2 := by
  refine ⟨rfl, ?_⟩
  rw [getSecretKey_of_guard st2 a hg]

/-- Witness for amended C6: the state after the first call has the static
constructed, and a further call leaves that state unchanged. -/
theorem accessors_frame_witness :
    (getSecretKeyThreaded ⟨true⟩ procInit).2 = procInit ∧
      (getSecretKey (getSecretKey procInit).2).2 = (getSecretKey procInit).2 :=
  accessors_frame ⟨true⟩ procInit (getSecretKey procInit).2 0 rfl

/-- C7: under the precondition that allocation during marshalling succeeds,
every invocation of the managed-bridge accessor returns a valid string, and
every invocation of the plain native accessor from an invariant-satisfying
state yields a reference to a valid string: no error branch is ever taken. -/
theorem accessors_no_error (env : JNIEnv) (st : ProcState)
    (h : env.allocOK = true) (hinv : KeyInv st) :
    (Java_com_example_fluttersampleachitecture_NativeKeyProvider_getSecretKey
      env).isSome = true ∧
      ((getSecretKey st).2.mem (getSecretKey st).1).isSome = true := by
  constructor
  · simp [Java_com_example_fluttersampleachitecture_NativeKeyProvider_getSecretKey,
      NewStringUTF, h]
  · rw [getSecretKey_mem st hinv]
    rfl

/-- Witness for C7 at a concrete environment and the load-time state. -/
theorem accessors_no_error_witness :
    (Java_com_example_fluttersampleachitecture_NativeKeyProvider_getSecretKey
      ⟨true⟩).isSome = true ∧
      ((getSecretKey procInit).2.mem (getSecretKey procInit).1).isSome = true :=
  accessors_no_error ⟨true⟩ procInit rfl KeyInv_procInit

/-- C8: every call to the plain native accessor returns the address of one
and the same process-wide static object: in any nonempty trace all returned
addresses coincide, the process state never changes after the first call
(the static is initialized at most once and never reinitialized), and the
referenced object still holds the key at the end of the trace (never
destroyed, so the reference stays valid). -/
theorem ios_static_identity (st : ProcState) (n : Nat) (h : KeyInv st) :
    (runCalls (n + 1) st).1.map Prod.fst = List.replicate (n + 1) (staticAddr st) ∧
      (runCalls (n + 1) st).2 = (getSecretKey st).2 ∧
      (runCalls (n + 1) st).2.mem (staticAddr st) = some iosKeyLiteral := by
  obtain ⟨haddr, hfinal⟩ := runCalls_addrs n st
  refine ⟨haddr, hfinal, ?_⟩
  rw [hfinal, ← getSecretKey_fst st]
  exact getSecretKey_mem st h

/-- Witness for C8: a concrete two-call trace from the load-time state. -/
theorem ios_static_identity_witness :
    (runCalls 2 procInit).1.map Prod.fst = List.replicate 2 (staticAddr procInit) ∧
      (runCalls 2 procInit).2 = (getSecretKey procInit).2 ∧
      (runCalls 2 procInit).2.mem (staticAddr procInit) = some iosKeyLiteral :=
  ios_static_identity procInit 1 KeyInv_procInit

/-- C9: the two accessors return unequal values: the managed string returned
by a successful invocation of the managed-bridge accessor differs from the
string referenced by the value the plain native accessor returns, despite
the in-code comment asserting the same secret key on both platforms. -/
theorem accessors_values_differ (env : JNIEnv) (st : ProcState)
    (h : env.allocOK = true) (hinv : KeyInv st) :
    Java_com_example_fluttersampleachitecture_NativeKeyProvider_getSecretKey env ≠
      (getSecretKey st).2.mem (getSecretKey st).1 := by
  rw [getSecretKey_mem st hinv]
  simp [Java_com_example_fluttersampleachitecture_NativeKeyProvider_getSecretKey,
    NewStringUTF, h]
  decide

/-- Witness for C9 at a concrete environment and the load-time state. -/
theorem accessors_values_differ_witness :
    Java_com_example_fluttersampleachitecture_NativeKeyProvider_getSecretKey ⟨true⟩ ≠
      (getSecretKey procInit).2.mem (getSecretKey procInit).1 :=
  accessors_values_differ ⟨true⟩ procInit rfl KeyInv_procInit

/-- C10: for any interleaving of calls by any number of callers on the
shared process state without locking, every caller observes the unchanged
fixed literal through the plain native accessor, and every successful
managed-bridge invocation returns its fixed literal. -/
theorem accessors_concurrent_safe (cs : List Nat) (st : ProcState)
    (env : JNIEnv) (h : KeyInv st) (he : env.allocOK = true) :
    (runConcCalls cs st).1 = cs.map (fun c => (c, some iosKeyLiteral)) ∧
      Java_com_example_fluttersampleachitecture_NativeKeyProvider_getSecretKey env =
        some androidKeyLiteral := by
  constructor
  · exact (runConcCalls_obs cs st h).1
  · simp [Java_com_example_fluttersampleachitecture_NativeKeyProvider_getSecretKey,
      NewStringUTF, he]

/-- Witness for C10: a concrete interleaving of three callers from the
load-time state. -/
theorem accessors_concurrent_safe_witness :
    (runConcCalls [0, 1, 0, 2] procInit).1 =
      [0, 1, 0, 2].map (fun c => (c, some iosKeyLiteral)) ∧
      Java_com_example_fluttersampleachitecture_NativeKeyProvider_getSecretKey ⟨true⟩ =
        some androidKeyLiteral :=
  accessors_concurrent_safe [0, 1, 0, 2] procInit ⟨true⟩ KeyInv_procInit rfl
